import Mathlib

/-!
Shallow embedding of FreeRDP's RPC secure-context binding
(`src/libfreerdp/core/gateway/rpc_bind.c`): construction of the
SECURE_BIND and RPC_AUTH_3 PDUs, reception of the SECURE_BIND_ACK,
and the surrounding control flow (credential prompting, call
registration, channel send).  Machine integers are modelled as `Nat`
with explicit `% 2^w` where the C code truncates; byte buffers are
`List Nat`; fallible allocations and external collaborators are
resolved by an explicit environment record so that every execution
path of the C functions corresponds to one evaluation of the Lean
functions.
-/

namespace RpcBind

/-! ### Byte-level helpers (little-endian serialization) -/

def u16le (x : Nat) : List Nat := [x % 256, x / 256 % 256]

def u32le (x : Nat) : List Nat :=
  [x % 256, x / 256 % 256, x / 65536 % 256, x / 16777216 % 256]

/-- Read one byte of a buffer; an out-of-range index yields 0 (the C code
would read undefined adjacent memory there; the concrete value never
matters for the claims proved below). -/
def readByte (b : List Nat) (i : Nat) : Nat := (b.getD i 0) % 256

/-- Read a little-endian 16-bit integer at byte offset `i`. -/
def readU16 (b : List Nat) (i : Nat) : Nat :=
  readByte b i + 256 * readByte b (i + 1)

/-! ### UUIDs and syntax identifiers (`p_uuid_t`, `p_syntax_id_t`) -/

structure p_uuid_t where
  time_low : Nat
  time_mid : Nat
  time_hi_and_version : Nat
  clock_seq_hi_and_reserved : Nat
  clock_seq_low : Nat
  node : List Nat
deriving DecidableEq, Repr

/-- Memory image of a `p_uuid_t` as copied by `CopyMemory` on a
little-endian machine: u32, u16, u16, two bytes, six node bytes. -/
def uuidBytes (u : p_uuid_t) : List Nat :=
  u32le u.time_low ++ u16le u.time_mid ++ u16le u.time_hi_and_version ++
    [u.clock_seq_hi_and_reserved % 256, u.clock_seq_low % 256] ++ u.node

def TSGU_UUID : p_uuid_t :=
  ⟨0x44E265DD, 0x7DAF, 0x42CD, 0x85, 0x60, [0x3C, 0xDB, 0x6E, 0x7A, 0x27, 0x29]⟩

def NDR_UUID : p_uuid_t :=
  ⟨0x8A885D04, 0x1CEB, 0x11C9, 0x9F, 0xE8, [0x08, 0x00, 0x2B, 0x10, 0x48, 0x60]⟩

def BTFN_UUID : p_uuid_t :=
  ⟨0x6CB71C2C, 0x9812, 0x4540, 0x03, 0x00, [0x00, 0x00, 0x00, 0x00, 0x00, 0x00]⟩

/-- Modelled from the spec: the interface-version constants live in the
repository's `rpc.h` header, which is not under `src/`; the spec pairs
each interface UUID with a 32-bit `if_version` without fixing the
values.  The concrete numbers play no role in any property proved
here. -/
def TSGU_SYNTAX_IF_VERSION : Nat := 0x00030001

/-- Modelled from the spec: see `TSGU_SYNTAX_IF_VERSION`. -/
def NDR_SYNTAX_IF_VERSION : Nat := 0x00000002

/-- Modelled from the spec: see `TSGU_SYNTAX_IF_VERSION`. -/
def BTFN_SYNTAX_IF_VERSION : Nat := 0x00000001

structure p_syntax_id_t where
  if_uuid : p_uuid_t
  if_version : Nat
deriving DecidableEq, Repr

/-- Memory image of a `p_syntax_id_t` (20 bytes): UUID then u32 version. -/
def syntaxIdBytes (s : p_syntax_id_t) : List Nat :=
  uuidBytes s.if_uuid ++ u32le s.if_version

/-! ### Protocol constants -/

def PTYPE_BIND : Nat := 0x0B
def PTYPE_BIND_ACK : Nat := 0x0C
def PTYPE_RPC_AUTH_3 : Nat := 0x10

def PFC_FIRST_FRAG : Nat := 0x01
def PFC_LAST_FRAG : Nat := 0x02
def PFC_SUPPORT_HEADER_SIGN : Nat := 0x04
def PFC_CONC_MPX : Nat := 0x10

/-- Modelled from the spec: authentication-service constant
`AUTHN_WINNT` (header value, not under `src/`); the concrete number is
irrelevant to the claims. -/
def RPC_C_AUTHN_WINNT : Nat := 0x0A

/-- Modelled from the spec: authentication-level constant
`AUTHN_LEVEL_PKT_INTEGRITY` (header value, not under `src/`). -/
def RPC_C_AUTHN_LEVEL_PKT_INTEGRITY : Nat := 0x05

/-- Modelled from the spec: the error code set by
`freerdp_set_last_error` on a cancelled credential prompt (header value,
not under `src/`); only its identity matters. -/
def FREERDP_ERROR_CONNECT_CANCELLED : Nat := 0x0002000B

/-- Modelled from the spec: `rpc_offset_align` (in `rpc.c`, not under
`src/`) advances `offset` to the next multiple of `n` and returns the
number of pad bytes inserted, i.e. `(n - offset % n) % n`; result is
`(pad, offset + pad)`. -/
def rpc_offset_align (offset n : Nat) : Nat × Nat :=
  let pad := (n - offset % n) % n
  (pad, offset + pad)

/-! ### Presentation context elements built by `rpc_send_bind_pdu` -/

structure p_cont_elem_t where
  p_cont_id : Nat
  n_transfer_syn : Nat
  reserved : Nat
  abstract_syntax : p_syntax_id_t
  transfer_syntaxes : List p_syntax_id_t
deriving DecidableEq, Repr

/-- First context element: id 0, abstract syntax TSGU, transfer syntax NDR
(lines 193-205 of `rpc_bind.c`). -/
def bind_cont_elem_0 : p_cont_elem_t :=
  ⟨0, 1, 0, ⟨TSGU_UUID, TSGU_SYNTAX_IF_VERSION⟩, [⟨NDR_UUID, NDR_SYNTAX_IF_VERSION⟩]⟩

/-- Second context element: id 1, abstract syntax TSGU, transfer syntax BTFN
(lines 206-218 of `rpc_bind.c`). -/
def bind_cont_elem_1 : p_cont_elem_t :=
  ⟨1, 1, 0, ⟨TSGU_UUID, TSGU_SYNTAX_IF_VERSION⟩, [⟨BTFN_UUID, BTFN_SYNTAX_IF_VERSION⟩]⟩

/-- First 24 bytes of a `p_cont_elem_t` as copied out by `CopyMemory`:
`[p_cont_id 2B][n_transfer_syn 1B][reserved 1B][abstract_syntax 20B]`. -/
def contElemHeadBytes (e : p_cont_elem_t) : List Nat :=
  u16le e.p_cont_id ++ [e.n_transfer_syn % 256, e.reserved % 256] ++
    syntaxIdBytes e.abstract_syntax

/-! ### The BIND PDU fields (`rpcconn_bind_hdr_t`) as assigned by
`rpc_send_bind_pdu` (lines 170-226) -/

structure BindPduFields where
  rpc_vers : Nat
  rpc_vers_minor : Nat
  ptype : Nat
  pfc_flags : Nat
  packed_drep : List Nat
  frag_length : Nat
  auth_length : Nat
  call_id : Nat
  max_xmit_frag : Nat
  max_recv_frag : Nat
  assoc_group_id : Nat
  n_context_elem : Nat
  auth_type : Nat
  auth_level : Nat
  auth_pad_length : Nat
  auth_reserved : Nat
  auth_context_id : Nat
  auth_value : List Nat
deriving DecidableEq, Repr

/-- The BIND PDU record exactly as `rpc_send_bind_pdu` fills it in:
`rpc_pdu_header_init` supplies `rpc_vers = 5`, `rpc_vers_minor = 0` and
`packed_drep = 10 00 00 00` (modelled from the spec, `rpc.c` is not
under `src/`); `auth_length` is the NTLM output token length truncated
by the `(UINT16)` cast; `offset` starts at 116, is aligned to 4, and
`frag_length = offset + 8 + auth_length` stored into the UINT16
`frag_length` field, hence taken mod 2^16. -/
def bind_pdu_of (maxXmit maxRecv : Nat) (token : List Nat) : BindPduFields :=
  let auth_length := token.length % 65536
  let pa := rpc_offset_align 116 4
  { rpc_vers := 5
    rpc_vers_minor := 0
    ptype := PTYPE_BIND
    pfc_flags := PFC_FIRST_FRAG ||| PFC_LAST_FRAG ||| PFC_SUPPORT_HEADER_SIGN ||| PFC_CONC_MPX
    packed_drep := [0x10, 0x00, 0x00, 0x00]
    frag_length := (pa.2 + 8 + auth_length) % 65536
    auth_length := auth_length
    call_id := 2
    max_xmit_frag := maxXmit
    max_recv_frag := maxRecv
    assoc_group_id := 0
    n_context_elem := 2
    auth_type := RPC_C_AUTHN_WINNT
    auth_level := RPC_C_AUTHN_LEVEL_PKT_INTEGRITY
    auth_pad_length := pa.1
    auth_reserved := 0
    auth_context_id := 0
    auth_value := token }

/-- First 24 bytes of the serialized BIND (or common part of AUTH_3) PDU:
common header (16B) then `max_xmit_frag`, `max_recv_frag` (the AUTH_3
copy stops after these 20 bytes; BIND continues with
`assoc_group_id`). -/
def commonHdrBytes (vers minor ptype pfc : Nat) (drep : List Nat)
    (fragLength authLength callId : Nat) : List Nat :=
  [vers % 256, minor % 256, ptype % 256, pfc % 256] ++ drep ++
    u16le fragLength ++ u16le authLength ++ u32le callId

/-- Bytes of the 8-byte auth-verifier head copied by
`CopyMemory(&buffer[offset], &auth_verifier.auth_type, 8)`. -/
def authTrailerBytes (authType authLevel authPadLength authReserved authContextId : Nat) :
    List Nat :=
  [authType % 256, authLevel % 256, authPadLength % 256, authReserved % 256] ++
    u32le authContextId

/-- The wire buffer built by `rpc_send_bind_pdu` (lines 227-242),
following the `CopyMemory` sequence: 24-byte fixed prefix, 4 bytes of
context-list head, context element 0 head (28..52), its transfer syntax
(52..72), context element 1 head (72..96), its transfer syntax
(96..116), alignment pad, 8-byte auth trailer, then `auth_length` bytes
of the NTLM token. -/
def rpc_bind_wire (maxXmit maxRecv : Nat) (token : List Nat) : List Nat :=
  let p := bind_pdu_of maxXmit maxRecv token
  commonHdrBytes p.rpc_vers p.rpc_vers_minor p.ptype p.pfc_flags p.packed_drep
      p.frag_length p.auth_length p.call_id ++
    u16le p.max_xmit_frag ++ u16le p.max_recv_frag ++ u32le p.assoc_group_id ++
    [p.n_context_elem % 256, 0, 0, 0] ++
    contElemHeadBytes bind_cont_elem_0 ++
    (bind_cont_elem_0.transfer_syntaxes.map syntaxIdBytes).flatten ++
    contElemHeadBytes bind_cont_elem_1 ++
    (bind_cont_elem_1.transfer_syntaxes.map syntaxIdBytes).flatten ++
    List.replicate p.auth_pad_length 0 ++
    authTrailerBytes p.auth_type p.auth_level p.auth_pad_length p.auth_reserved
      p.auth_context_id ++
    p.auth_value.take p.auth_length

/-! ### The RPC_AUTH_3 PDU (`rpcconn_rpc_auth_3_hdr_t`) as assigned by
`rpc_send_rpc_auth_3_pdu` (lines 328-348) -/

structure Auth3PduFields where
  rpc_vers : Nat
  rpc_vers_minor : Nat
  ptype : Nat
  pfc_flags : Nat
  packed_drep : List Nat
  frag_length : Nat
  auth_length : Nat
  call_id : Nat
  max_xmit_frag : Nat
  max_recv_frag : Nat
  auth_type : Nat
  auth_level : Nat
  auth_pad_length : Nat
  auth_reserved : Nat
  auth_context_id : Nat
  auth_value : List Nat
deriving DecidableEq, Repr

/-- The RPC_AUTH_3 PDU record exactly as `rpc_send_rpc_auth_3_pdu`
fills it in: `offset` starts at 20, is aligned to 4, and
`frag_length = offset + 8 + auth_length` stored into the UINT16
`frag_length` field, hence taken mod 2^16. -/
def auth3_pdu_of (maxXmit maxRecv : Nat) (token : List Nat) : Auth3PduFields :=
  let auth_length := token.length % 65536
  let pa := rpc_offset_align 20 4
  { rpc_vers := 5
    rpc_vers_minor := 0
    ptype := PTYPE_RPC_AUTH_3
    pfc_flags := PFC_FIRST_FRAG ||| PFC_LAST_FRAG ||| PFC_CONC_MPX
    packed_drep := [0x10, 0x00, 0x00, 0x00]
    frag_length := (pa.2 + 8 + auth_length) % 65536
    auth_length := auth_length
    call_id := 2
    max_xmit_frag := maxXmit
    max_recv_frag := maxRecv
    auth_type := RPC_C_AUTHN_WINNT
    auth_level := RPC_C_AUTHN_LEVEL_PKT_INTEGRITY
    auth_pad_length := pa.1
    auth_reserved := 0
    auth_context_id := 0
    auth_value := token }

/-- The wire buffer built by `rpc_send_rpc_auth_3_pdu` (lines 357-362):
20-byte fixed prefix, alignment pad, 8-byte auth trailer, then
`auth_length` token bytes. -/
def rpc_auth3_wire (maxXmit maxRecv : Nat) (token : List Nat) : List Nat :=
  let p := auth3_pdu_of maxXmit maxRecv token
  commonHdrBytes p.rpc_vers p.rpc_vers_minor p.ptype p.pfc_flags p.packed_drep
      p.frag_length p.auth_length p.call_id ++
    u16le p.max_xmit_frag ++ u16le p.max_recv_frag ++
    List.replicate p.auth_pad_length 0 ++
    authTrailerBytes p.auth_type p.auth_level p.auth_pad_length p.auth_reserved
      p.auth_context_id ++
    p.auth_value.take p.auth_length

/-! ### Session state and reception of the SECURE_BIND_ACK -/

structure RpcState where
  max_xmit_frag : Nat
  max_recv_frag : Nat
deriving DecidableEq, Repr

structure RecvRun where
  ret : Int
  state : RpcState
  authInput : Option (List Nat)
deriving DecidableEq, Repr

/-- `rpc_recv_bind_ack_pdu` (lines 290-308): the incoming buffer is cast
to `rpcconn_hdr_t`, so on a little-endian machine the fields are read at
their struct offsets (`frag_length` at 8, `auth_length` at 10,
`max_xmit_frag` at 16, `max_recv_frag` at 18).  The fragment sizes are
swapped into the session state unconditionally; then
`malloc(auth_length)` may fail (`mallocOk = false`), in which case the
function returns -1; otherwise `auth_length` bytes starting at
`frag_length - auth_length` are copied into the NTLM input buffer and
the function returns `length`.  The function performs no validation of
`frag_length` or `auth_length` against the buffer. -/
def rpc_recv_bind_ack_pdu (_st : RpcState) (buffer : List Nat) (length : Nat)
    (mallocOk : Bool) : RecvRun :=
  let hdrMaxXmit := readU16 buffer 16
  let hdrMaxRecv := readU16 buffer 18
  let authLength := readU16 buffer 10
  let fragLength := readU16 buffer 8
  if mallocOk then
    { ret := (length : Int)
      state := { max_xmit_frag := hdrMaxRecv, max_recv_frag := hdrMaxXmit }
      authInput := some ((List.range authLength).map
        (fun i => readByte buffer (fragLength - authLength + i))) }
  else
    { ret := -1
      state := { max_xmit_frag := hdrMaxRecv, max_recv_frag := hdrMaxXmit }
      authInput := none }

structure BindAckFields where
  pfc_flags : Nat
  frag_length : Nat
  auth_length : Nat
  call_id : Nat
  max_xmit_frag : Nat
  max_recv_frag : Nat
deriving DecidableEq, Repr

/-- Modelled from the spec: the SECURE_BIND_ACK fixed prefix (20 bytes)
of §4.1/§6 — common header with `frag_length` at offset 8 and
`auth_length` at offset 10, then `max_xmit_frag` at 16 and
`max_recv_frag` at 18 (the `rpcconn_bind_ack_hdr_t` layout lives in
`rpc.h`, which is not under `src/`). -/
def bindAckPrefixBytes (h : BindAckFields) : List Nat :=
  [5, 0, PTYPE_BIND_ACK, h.pfc_flags % 256, 0x10, 0, 0, 0] ++
    u16le h.frag_length ++ u16le h.auth_length ++ u32le h.call_id ++
    u16le h.max_xmit_frag ++ u16le h.max_recv_frag

/-! ### Execution model of the two send functions

Every external call and fallible allocation is resolved by an explicit
environment record, and the externally visible actions (NTLM oracle
initialization, call creation and insertion, channel send) are recorded
in order in a trace. -/

inductive RpcEvent where
  | oracleInit (ok : Bool)
  | callNew (callId : Nat) (ok : Bool)
  | listAdd (callId : Option Nat) (ok : Bool)
  | sendPdu (bytes : List Nat)
deriving DecidableEq, Repr

structure RdpSettings where
  GatewayUsername : Option String
  GatewayPassword : Option String
  GatewayDomain : Option String
  Username : Option String
  Domain : Option String
  Password : Option String
  GatewayUseSameCredentials : Bool
deriving DecidableEq, Repr

/-- Environment resolving the external calls of `rpc_send_bind_pdu`:
`ntlm_new`, the `GatewayAuthenticate` credential prompt (presence,
outcome, and the credentials it writes back through its pointer
arguments), the three `_strdup` calls, the NTLM oracle calls, the four
PDU allocations, `rpc_client_call_new`, `ArrayList_Add`, the channel
send result, and the NTLM output token bytes. -/
structure BindEnv where
  ntlmNewOk : Bool
  hasGatewayAuthenticate : Bool
  promptProceed : Bool
  promptUser : Option String
  promptPass : Option String
  promptDomain : Option String
  dupUserOk : Bool
  dupDomainOk : Bool
  dupPassOk : Bool
  clientInitOk : Bool
  makeSpnOk : Bool
  authenticateOk : Bool
  bindPduAllocOk : Bool
  contElemAllocOk : Bool
  ts0AllocOk : Bool
  ts1AllocOk : Bool
  bufferAllocOk : Bool
  callNewOk : Bool
  addOk : Bool
  sendStatus : Int
  token : List Nat
deriving DecidableEq, Repr

structure BindRun where
  ret : Int
  settings : RdpSettings
  lastError : Option Nat
  trace : List RpcEvent
deriving DecidableEq, Repr

/-- A gateway credential triggers the prompt when the pointer is NULL or
the string is empty (`!settings->GatewayPassword || ... ||
!strlen(settings->GatewayPassword) || ...`, lines 129-130). -/
def isBlank : Option String → Bool
  | none => true
  | some s => s.length == 0

/-- Modelled from the spec: `_strdup` (WinPR, not under `src/`)
duplicates a C string; it returns NULL when its argument is NULL or
when allocation fails, and a copy otherwise. -/
def strdupOpt (s : Option String) (ok : Bool) : Option String :=
  if ok then s else none

/-- Settings after the credential prompt proceeded: `GatewayAuthenticate`
writes the prompted credentials back through its `char**` arguments
(line 139-140). -/
def promptedSettings (s : RdpSettings) (env : BindEnv) : RdpSettings :=
  { s with GatewayUsername := env.promptUser
           GatewayPassword := env.promptPass
           GatewayDomain := env.promptDomain }

/-- Settings after the three `_strdup` calls of lines 150-152 copied the
gateway credentials into the session credential slots. -/
def dupSettings (s : RdpSettings) (env : BindEnv) : RdpSettings :=
  { s with Username := strdupOpt s.GatewayUsername env.dupUserOk
           Domain := strdupOpt s.GatewayDomain env.dupDomainOk
           Password := strdupOpt s.GatewayPassword env.dupPassOk }

/-- Tail of `rpc_send_bind_pdu` from `ntlm_client_init` (line 160)
onward: oracle calls, PDU and buffer allocations, call registration and
channel send, with the early `-1` returns of the source.
`rpc_client_call_new` and `ArrayList_Add` (in `rpc_client.c` / WinPR,
not under `src/`) are modelled from the spec's CallRegistry: creation
yields a call object carrying the PDU's `call_id` (failing only on
allocation), insertion appends its argument (failing only on
allocation); the BIND path checks both before sending (lines
244-258). -/
def rpc_send_bind_tail (st : RpcState) (s : RdpSettings) (env : BindEnv) : BindRun :=
  if env.clientInitOk then
    if env.makeSpnOk then
      if env.authenticateOk then
        if env.bindPduAllocOk then
          if env.contElemAllocOk then
            if env.ts0AllocOk then
              if env.ts1AllocOk then
                if env.bufferAllocOk then
                  if env.callNewOk then
                    if env.addOk then
                      ⟨if env.sendStatus > 0 then 1 else -1, s, none,
                        [.oracleInit true, .callNew 2 true, .listAdd (some 2) true,
                          .sendPdu (rpc_bind_wire st.max_xmit_frag st.max_recv_frag
                            env.token)]⟩
                    else ⟨-1, s, none,
                      [.oracleInit true, .callNew 2 true, .listAdd (some 2) false]⟩
                  else ⟨-1, s, none, [.oracleInit true, .callNew 2 false]⟩
                else ⟨-1, s, none, [.oracleInit true]⟩
              else ⟨-1, s, none, [.oracleInit true]⟩
            else ⟨-1, s, none, [.oracleInit true]⟩
          else ⟨-1, s, none, [.oracleInit true]⟩
        else ⟨-1, s, none, [.oracleInit true]⟩
      else ⟨-1, s, none, [.oracleInit true]⟩
    else ⟨-1, s, none, [.oracleInit true]⟩
  else ⟨-1, s, none, [.oracleInit false]⟩

/-- `rpc_send_bind_pdu` (lines 108-265): allocate the NTLM context, run
the credential prompt when the gateway username or password is blank
(returning 0 with `FREERDP_ERROR_CONNECT_CANCELLED` when the prompt is
declined, lines 142-146), copy the gateway credentials into the session
slots under `GatewayUseSameCredentials` with the source's verbatim
check `!settings->Username || !settings->Domain || settings->Password`
(line 154), then continue with `rpc_send_bind_tail`. -/
def rpc_send_bind_pdu (st : RpcState) (s : RdpSettings) (env : BindEnv) : BindRun :=
  if env.ntlmNewOk then
    if (isBlank s.GatewayPassword || isBlank s.GatewayUsername)
        && env.hasGatewayAuthenticate then
      if env.promptProceed then
        if (promptedSettings s env).GatewayUseSameCredentials then
          if (dupSettings (promptedSettings s env) env).Username = none
              ∨ (dupSettings (promptedSettings s env) env).Domain = none
              ∨ ¬ (dupSettings (promptedSettings s env) env).Password = none then
            ⟨-1, dupSettings (promptedSettings s env) env, none, []⟩
          else rpc_send_bind_tail st (dupSettings (promptedSettings s env) env) env
        else rpc_send_bind_tail st (promptedSettings s env) env
      else ⟨0, s, some FREERDP_ERROR_CONNECT_CANCELLED, []⟩
    else rpc_send_bind_tail st s env
  else ⟨-1, s, none, []⟩

/-- Environment resolving the external calls of
`rpc_send_rpc_auth_3_pdu`. -/
structure Auth3Env where
  pduAllocOk : Bool
  bufferAllocOk : Bool
  callNewOk : Bool
  addOk : Bool
  sendStatus : Int
  token : List Nat
deriving DecidableEq, Repr

structure Auth3Run where
  ret : Int
  trace : List RpcEvent
deriving DecidableEq, Repr

/-- `rpc_send_rpc_auth_3_pdu` (lines 317-374): allocate the PDU and the
wire buffer, create a client call with `rpc_client_call_new` (its
result is not checked for NULL here, unlike the BIND path), insert it
with `ArrayList_Add`, and send exactly when the insertion succeeded
(lines 364-369); the return value is 1 when the send reported success
and -1 otherwise.  `ArrayList_Add` is modelled from the spec's
registry-append: it appends its argument — the call object, or the
null result of a failed creation — and fails only on allocation. -/
def rpc_send_rpc_auth_3_pdu (st : RpcState) (env : Auth3Env) : Auth3Run :=
  if env.pduAllocOk then
    if env.bufferAllocOk then
      if env.addOk then
        ⟨if env.sendStatus > 0 then 1 else -1,
          [.callNew 2 env.callNewOk,
            .listAdd (if env.callNewOk then some 2 else none) true,
            .sendPdu (rpc_auth3_wire st.max_xmit_frag st.max_recv_frag env.token)]⟩
      else
        ⟨-1, [.callNew 2 env.callNewOk,
          .listAdd (if env.callNewOk then some 2 else none) false]⟩
    else ⟨-1, []⟩
  else ⟨-1, []⟩

/-! ### Trace predicates -/

def isSendEvent : RpcEvent → Bool
  | .sendPdu _ => true
  | _ => false

/-- True when the trace hands no PDU bytes to the channel. -/
def noSend (tr : List RpcEvent) : Bool := tr.all fun e => ! isSendEvent e

/-- A successful insertion of the call object with `call_id = 2`. -/
def isAddOfCall2 : RpcEvent → Bool
  | .listAdd (some 2) true => true
  | _ => false

/-- Any successful `ArrayList_Add` insertion. -/
def isAddSuccess : RpcEvent → Bool
  | .listAdd _ true => true
  | _ => false

/-- `guardedSends p seen tr` holds when every send event in `tr` is
preceded by an event satisfying `p` (or `seen` already holds). -/
def guardedSends (p : RpcEvent → Bool) : Bool → List RpcEvent → Bool
  | _, [] => true
  | seen, e :: r =>
    if isSendEvent e then seen && guardedSends p seen r
    else guardedSends p (seen || p e) r

/-! ### Concrete instances used by individual claims -/

def c2SettingsBlank : RdpSettings := ⟨none, none, none, none, none, none, true⟩

def c2EnvDupsSucceed : BindEnv :=
  ⟨true, true, true, some "u", some "p", some "d", true, true, true, true, true,
    true, true, true, true, true, true, true, true, 1, []⟩

def c2EnvPassDupFails : BindEnv := { c2EnvDupsSucceed with dupPassOk := false }

def c7Auth3EnvNewFails : Auth3Env := ⟨true, true, false, true, 1, []⟩

def c7Auth3EnvAddFails : Auth3Env := ⟨true, true, true, false, 1, []⟩

def c7Settings : RdpSettings :=
  ⟨some "gu", some "gp", none, none, none, none, false⟩

def c7BindEnvAllOk : BindEnv :=
  ⟨true, false, true, none, none, none, true, true, true, true, true, true,
    true, true, true, true, true, true, true, 1, []⟩

def c8Settings : RdpSettings := ⟨some "user", none, none, none, none, none, false⟩

def c8Env : BindEnv :=
  ⟨true, true, false, none, none, none, true, true, true, true, true, true,
    true, true, true, true, true, true, true, 1, []⟩

def c3AckFields : BindAckFields := ⟨3, 84, 40, 2, 4088, 2000⟩

/-! ### Theorems -/

/-- Helper: the byte stream written by `rpc_send_bind_pdu` always has
`116 + 8 + auth_length` bytes (the `CopyMemory` sequence, independent of
the UINT16 `frag_length` field). -/
theorem bind_wire_length :
    ∀ maxXmit maxRecv : Nat, ∀ token : List Nat,
      (rpc_bind_wire maxXmit maxRecv token).length = 124 + token.length % 65536 := by
  intro maxXmit maxRecv token
  have h : token.length % 65536 ≤ token.length := Nat.mod_le _ _
  simp only [rpc_bind_wire, bind_pdu_of, rpc_offset_align, commonHdrBytes,
    contElemHeadBytes, syntaxIdBytes, uuidBytes, authTrailerBytes,
    u16le, u32le, bind_cont_elem_0, bind_cont_elem_1,
    TSGU_UUID, NDR_UUID, BTFN_UUID,
    TSGU_SYNTAX_IF_VERSION, NDR_SYNTAX_IF_VERSION, BTFN_SYNTAX_IF_VERSION,
    List.map, List.flatten_cons, List.flatten_nil, List.append_nil,
    List.length_append, List.length_take, List.length_cons, List.length_nil,
    List.length_replicate, Nat.min_eq_left h]

/-- Helper: at any 65535-byte NTLM token, the BIND PDU carries
`auth_length = 65535`, pad 0, and a UINT16 `frag_length` wrapped to
`(116 + 0 + 8 + 65535) % 65536 = 123`. -/
theorem bind_pdu_fields_at_wrap (token : List Nat) (h : token.length = 65535) :
    (bind_pdu_of 4088 4088 token).auth_length = 65535 ∧
      (bind_pdu_of 4088 4088 token).auth_pad_length = 0 ∧
      (bind_pdu_of 4088 4088 token).frag_length = 123 := by
  have ha : (bind_pdu_of 4088 4088 token).auth_length = token.length % 65536 := rfl
  have hf : (bind_pdu_of 4088 4088 token).frag_length =
      (124 + token.length % 65536) % 65536 := rfl
  rw [h] at ha hf
  norm_num at ha hf
  exact ⟨ha, rfl, hf⟩

/-- C4 counterexample: with a 65535-byte NTLM token the UINT16
`frag_length` wraps — `rpc_send_bind_pdu` stores
`(116 + 0 + 8 + 65535) % 65536 = 123` while it writes `124 + 65535`
bytes, so neither `frag_length = 116 + auth_pad_length + 8 +
auth_length` nor `buffer length = frag_length` holds there. -/
theorem bind_pdu_frag_length_wrap :
    (bind_pdu_of 4088 4088 (List.replicate 65535 0)).auth_length = 65535 ∧
      (bind_pdu_of 4088 4088 (List.replicate 65535 0)).auth_pad_length = 0 ∧
      (bind_pdu_of 4088 4088 (List.replicate 65535 0)).frag_length = 123 ∧
      ¬ ((bind_pdu_of 4088 4088 (List.replicate 65535 0)).frag_length =
          116 + (bind_pdu_of 4088 4088 (List.replicate 65535 0)).auth_pad_length + 8 +
            (bind_pdu_of 4088 4088 (List.replicate 65535 0)).auth_length) ∧
      ¬ ((rpc_bind_wire 4088 4088 (List.replicate 65535 0)).length =
          (bind_pdu_of 4088 4088 (List.replicate 65535 0)).frag_length) := by
  have hlr : (List.replicate 65535 (0 : Nat)).length = 65535 := by
    rw [List.length_replicate]
  obtain ⟨ha, hp, hf⟩ := bind_pdu_fields_at_wrap (List.replicate 65535 0) hlr
  have hw := bind_wire_length 4088 4088 (List.replicate 65535 0)
  rw [hlr] at hw
  refine ⟨ha, hp, hf, ?_, ?_⟩
  · rw [hf, hp, ha]
    decide
  · rw [hw, hf]
    decide

/-- C4 (amended): for every serialized SECURE_BIND PDU built by
`rpc_send_bind_pdu` whose `auth_length` is at most 65411 — so that
`116 + pad + 8 + auth_length` fits the UINT16 `frag_length` field — the
wire buffer's length equals the declared `frag_length`,
`frag_length = 116 + auth_pad_length + 8 + auth_length`, and the pad
before the auth trailer equals `(4 - 116 % 4) % 4 = 0`; for larger
tokens the stored `frag_length` wraps mod 2^16 (see the
counterexample). -/
theorem bind_pdu_frag_length_wire (maxXmit maxRecv : Nat) (token : List Nat)
    (h : token.length % 65536 ≤ 65411) :
    (rpc_bind_wire maxXmit maxRecv token).length =
        (bind_pdu_of maxXmit maxRecv token).frag_length ∧
      (bind_pdu_of maxXmit maxRecv token).frag_length =
        116 + (bind_pdu_of maxXmit maxRecv token).auth_pad_length + 8 +
          (bind_pdu_of maxXmit maxRecv token).auth_length ∧
      (bind_pdu_of maxXmit maxRecv token).auth_pad_length = (4 - 116 % 4) % 4 ∧
      (bind_pdu_of maxXmit maxRecv token).auth_pad_length = 0 := by
  have hlen := bind_wire_length maxXmit maxRecv token
  have hf : (bind_pdu_of maxXmit maxRecv token).frag_length =
      (124 + (bind_pdu_of maxXmit maxRecv token).auth_length) % 65536 := rfl
  have ha : (bind_pdu_of maxXmit maxRecv token).auth_length = token.length % 65536 := rfl
  have hp : (bind_pdu_of maxXmit maxRecv token).auth_pad_length = 0 := rfl
  refine ⟨?_, ?_, rfl, rfl⟩
  · rw [hlen, hf, ha]
    omega
  · rw [hf, ha, hp]
    omega

/-- C4 witness: the spec's S1 token `[0xAA, 0xBB]` is far below the
wrap bound and yields `frag_length = 126` matching the buffer. -/
theorem bind_pdu_frag_length_wire_witness :
    [170, 187].length % 65536 ≤ 65411 ∧
      (rpc_bind_wire 4088 4088 [170, 187]).length =
        (bind_pdu_of 4088 4088 [170, 187]).frag_length ∧
      (bind_pdu_of 4088 4088 [170, 187]).frag_length = 126 :=
  ⟨by decide,
    (bind_pdu_frag_length_wire 4088 4088 [170, 187] (by decide)).1,
    by decide⟩

/-- C5: every SECURE_BIND PDU built by `rpc_send_bind_pdu` carries
exactly two presentation contexts in fixed order: the wire bytes at
offsets 28..52 (head) and 52..72 (transfer syntax) encode a context
with `p_cont_id = 0`, abstract syntax TSGU and transfer syntax NDR, and
the bytes at 72..96 and 96..116 encode a context with `p_cont_id = 1`,
abstract syntax TSGU and transfer syntax BTFN; the context count byte
at offset 24 is 2. -/
theorem bind_wire_presentation_contexts :
    ∀ maxXmit maxRecv : Nat, ∀ token : List Nat,
      ((rpc_bind_wire maxXmit maxRecv token).drop 24).take 4 = [2, 0, 0, 0] ∧
      (bind_pdu_of maxXmit maxRecv token).n_context_elem = 2 ∧
      ((rpc_bind_wire maxXmit maxRecv token).drop 28).take 24 =
        contElemHeadBytes bind_cont_elem_0 ∧
      ((rpc_bind_wire maxXmit maxRecv token).drop 52).take 20 =
        syntaxIdBytes ⟨NDR_UUID, NDR_SYNTAX_IF_VERSION⟩ ∧
      ((rpc_bind_wire maxXmit maxRecv token).drop 72).take 24 =
        contElemHeadBytes bind_cont_elem_1 ∧
      ((rpc_bind_wire maxXmit maxRecv token).drop 96).take 20 =
        syntaxIdBytes ⟨BTFN_UUID, BTFN_SYNTAX_IF_VERSION⟩ ∧
      bind_cont_elem_0.p_cont_id = 0 ∧
      bind_cont_elem_0.abstract_syntax = ⟨TSGU_UUID, TSGU_SYNTAX_IF_VERSION⟩ ∧
      bind_cont_elem_0.transfer_syntaxes = [⟨NDR_UUID, NDR_SYNTAX_IF_VERSION⟩] ∧
      bind_cont_elem_1.p_cont_id = 1 ∧
      bind_cont_elem_1.abstract_syntax = ⟨TSGU_UUID, TSGU_SYNTAX_IF_VERSION⟩ ∧
      bind_cont_elem_1.transfer_syntaxes = [⟨BTFN_UUID, BTFN_SYNTAX_IF_VERSION⟩] := by
  intro maxXmit maxRecv token
  refine ⟨?_, rfl, ?_, ?_, ?_, ?_, rfl, rfl, rfl, rfl, rfl, rfl⟩ <;>
    simp only [rpc_bind_wire, bind_pdu_of, rpc_offset_align, commonHdrBytes,
      contElemHeadBytes, syntaxIdBytes, uuidBytes, authTrailerBytes,
      u16le, u32le, bind_cont_elem_0, bind_cont_elem_1,
      TSGU_UUID, NDR_UUID, BTFN_UUID,
      TSGU_SYNTAX_IF_VERSION, NDR_SYNTAX_IF_VERSION, BTFN_SYNTAX_IF_VERSION,
      List.map, List.flatten_cons, List.flatten_nil, List.append_nil,
      List.cons_append, List.nil_append,
      List.drop_succ_cons, List.drop_zero,
      List.take_succ_cons, List.take_zero, Nat.reduceMod, Nat.reduceSub,
      List.replicate_zero]

/-- Helper: the byte stream written by `rpc_send_rpc_auth_3_pdu` always
has `20 + 8 + auth_length` bytes (the `CopyMemory` sequence, independent
of the UINT16 `frag_length` field). -/
theorem auth3_wire_length :
    ∀ maxXmit maxRecv : Nat, ∀ token : List Nat,
      (rpc_auth3_wire maxXmit maxRecv token).length = 28 + token.length % 65536 := by
  intro maxXmit maxRecv token
  have h : token.length % 65536 ≤ token.length := Nat.mod_le _ _
  simp only [rpc_auth3_wire, auth3_pdu_of, rpc_offset_align, commonHdrBytes,
    authTrailerBytes, u16le, u32le,
    List.length_append, List.length_take, List.length_cons, List.length_nil,
    List.length_replicate, Nat.min_eq_left h]

/-- Helper: at any 65535-byte NTLM token, the RPC_AUTH_3 PDU carries
`auth_length = 65535`, pad 0, and a UINT16 `frag_length` wrapped to
`(20 + 0 + 8 + 65535) % 65536 = 27`. -/
theorem auth3_pdu_fields_at_wrap (token : List Nat) (h : token.length = 65535) :
    (auth3_pdu_of 4088 4088 token).auth_length = 65535 ∧
      (auth3_pdu_of 4088 4088 token).auth_pad_length = 0 ∧
      (auth3_pdu_of 4088 4088 token).frag_length = 27 := by
  have ha : (auth3_pdu_of 4088 4088 token).auth_length = token.length % 65536 := rfl
  have hf : (auth3_pdu_of 4088 4088 token).frag_length =
      (28 + token.length % 65536) % 65536 := rfl
  rw [h] at ha hf
  norm_num at ha hf
  exact ⟨ha, rfl, hf⟩

/-- C6 counterexample: with a 65535-byte NTLM token the UINT16
`frag_length` wraps — `rpc_send_rpc_auth_3_pdu` stores
`(20 + 0 + 8 + 65535) % 65536 = 27` while it writes `28 + 65535` bytes,
so neither `frag_length = 20 + auth_pad_length + 8 + auth_length` nor
`buffer length = frag_length` holds there. -/
theorem auth3_pdu_frag_length_wrap :
    (auth3_pdu_of 4088 4088 (List.replicate 65535 0)).auth_length = 65535 ∧
      (auth3_pdu_of 4088 4088 (List.replicate 65535 0)).auth_pad_length = 0 ∧
      (auth3_pdu_of 4088 4088 (List.replicate 65535 0)).frag_length = 27 ∧
      ¬ ((auth3_pdu_of 4088 4088 (List.replicate 65535 0)).frag_length =
          20 + (auth3_pdu_of 4088 4088 (List.replicate 65535 0)).auth_pad_length + 8 +
            (auth3_pdu_of 4088 4088 (List.replicate 65535 0)).auth_length) ∧
      ¬ ((rpc_auth3_wire 4088 4088 (List.replicate 65535 0)).length =
          (auth3_pdu_of 4088 4088 (List.replicate 65535 0)).frag_length) := by
  have hlr : (List.replicate 65535 (0 : Nat)).length = 65535 := by
    rw [List.length_replicate]
  obtain ⟨ha, hp, hf⟩ := auth3_pdu_fields_at_wrap (List.replicate 65535 0) hlr
  have hw := auth3_wire_length 4088 4088 (List.replicate 65535 0)
  rw [hlr] at hw
  refine ⟨ha, hp, hf, ?_, ?_⟩
  · rw [hf, hp, ha]
    decide
  · rw [hw, hf]
    decide

/-- C6 (amended): for every RPC_AUTH_3 PDU built by
`rpc_send_rpc_auth_3_pdu` whose `auth_length` is at most 65507 — so
that `20 + pad + 8 + auth_length` fits the UINT16 `frag_length` field —
the wire buffer's length equals the declared `frag_length`, and
`frag_length = 20 + auth_pad_length + 8 + auth_length` with an
alignment pad of `(4 - 20 % 4) % 4 = 0`; for larger tokens the stored
`frag_length` wraps mod 2^16 (see the counterexample). -/
theorem auth3_pdu_frag_length_wire (maxXmit maxRecv : Nat) (token : List Nat)
    (h : token.length % 65536 ≤ 65507) :
    (rpc_auth3_wire maxXmit maxRecv token).length =
        (auth3_pdu_of maxXmit maxRecv token).frag_length ∧
      (auth3_pdu_of maxXmit maxRecv token).frag_length =
        20 + (auth3_pdu_of maxXmit maxRecv token).auth_pad_length + 8 +
          (auth3_pdu_of maxXmit maxRecv token).auth_length ∧
      (auth3_pdu_of maxXmit maxRecv token).auth_pad_length = (4 - 20 % 4) % 4 ∧
      (auth3_pdu_of maxXmit maxRecv token).auth_pad_length = 0 := by
  have hlen := auth3_wire_length maxXmit maxRecv token
  have hf : (auth3_pdu_of maxXmit maxRecv token).frag_length =
      (28 + (auth3_pdu_of maxXmit maxRecv token).auth_length) % 65536 := rfl
  have ha : (auth3_pdu_of maxXmit maxRecv token).auth_length = token.length % 65536 := rfl
  have hp : (auth3_pdu_of maxXmit maxRecv token).auth_pad_length = 0 := rfl
  refine ⟨?_, ?_, rfl, rfl⟩
  · rw [hlen, hf, ha]
    omega
  · rw [hf, ha, hp]
    omega

/-- C6 witness: the spec's S1 third-leg token `[0xEE, 0xFF]` is far
below the wrap bound and yields `frag_length = 30` matching the
buffer. -/
theorem auth3_pdu_frag_length_wire_witness :
    [238, 255].length % 65536 ≤ 65507 ∧
      (rpc_auth3_wire 4088 4088 [238, 255]).length =
        (auth3_pdu_of 4088 4088 [238, 255]).frag_length ∧
      (auth3_pdu_of 4088 4088 [238, 255]).frag_length = 30 :=
  ⟨by decide,
    (auth3_pdu_frag_length_wire 4088 4088 [238, 255] (by decide)).1,
    by decide⟩

/-- C9: both handshake PDUs the client builds carry `call_id = 2`: the
`call_id` assigned in `rpc_send_bind_pdu` and the one assigned in
`rpc_send_rpc_auth_3_pdu` both equal 2. -/
theorem handshake_call_id_two :
    ∀ maxXmit maxRecv : Nat, ∀ token : List Nat,
      (bind_pdu_of maxXmit maxRecv token).call_id = 2 ∧
        (auth3_pdu_of maxXmit maxRecv token).call_id = 2 := by
  intro maxXmit maxRecv token
  exact ⟨rfl, rfl⟩

/-- C3: on BIND_ACK receipt the local fragment sizes are updated by
swapping the peer's values: `rpc.max_recv_frag` is assigned the incoming
PDU's `max_xmit_frag` and `rpc.max_xmit_frag` is assigned the incoming
PDU's `max_recv_frag` — for every bind-ack prefix and trailing bytes. -/
theorem bind_ack_swaps_fragment_sizes :
    ∀ h : BindAckFields, ∀ rest : List Nat, ∀ st : RpcState, ∀ length : Nat,
      ∀ mallocOk : Bool,
      h.max_xmit_frag < 65536 → h.max_recv_frag < 65536 →
      (rpc_recv_bind_ack_pdu st (bindAckPrefixBytes h ++ rest) length
            mallocOk).state.max_recv_frag = h.max_xmit_frag ∧
        (rpc_recv_bind_ack_pdu st (bindAckPrefixBytes h ++ rest) length
            mallocOk).state.max_xmit_frag = h.max_recv_frag := by
  intro h rest st length mallocOk h1 h2
  cases mallocOk <;>
    simp [rpc_recv_bind_ack_pdu, bindAckPrefixBytes, readU16, readByte,
      u16le, u32le, PTYPE_BIND_ACK] <;>
    omega

/-- C3 witness: a concrete bind-ack with `max_xmit_frag = 4088` and
`max_recv_frag = 2000` yields the swapped session sizes. -/
theorem bind_ack_swaps_fragment_sizes_witness :
    c3AckFields.max_xmit_frag < 65536 ∧
      (rpc_recv_bind_ack_pdu ⟨0, 0⟩ (bindAckPrefixBytes c3AckFields ++ []) 84
            true).state.max_recv_frag = 4088 ∧
        (rpc_recv_bind_ack_pdu ⟨0, 0⟩ (bindAckPrefixBytes c3AckFields ++ []) 84
            true).state.max_xmit_frag = 2000 :=
  ⟨by decide,
    (bind_ack_swaps_fragment_sizes c3AckFields [] ⟨0, 0⟩ 84 true (by decide)
      (by decide)).1,
    (bind_ack_swaps_fragment_sizes c3AckFields [] ⟨0, 0⟩ 84 true (by decide)
      (by decide)).2⟩

/-- C10: `rpc_recv_bind_ack_pdu` is not atomic on failure: whenever the
allocation of the NTLM input buffer fails and it returns -1, the
session's fragment sizes have already been overwritten with the values
read from the (unvalidated) incoming header; in particular a session
that started with sizes 4088/4088 ends with 1024/768 despite the -1
return. -/
theorem bind_ack_mutates_sizes_on_alloc_failure :
    (∀ st : RpcState, ∀ buffer : List Nat, ∀ length : Nat,
        (rpc_recv_bind_ack_pdu st buffer length false).ret = -1 ∧
          (rpc_recv_bind_ack_pdu st buffer length false).authInput = none ∧
          (rpc_recv_bind_ack_pdu st buffer length false).state =
            ⟨readU16 buffer 18, readU16 buffer 16⟩) ∧
      rpc_recv_bind_ack_pdu ⟨4088, 4088⟩
          (bindAckPrefixBytes ⟨3, 84, 40, 2, 768, 1024⟩) 84 false
        = ⟨-1, ⟨1024, 768⟩, none⟩ := by
  constructor
  · intro st buffer length
    exact ⟨rfl, rfl, rfl⟩
  · decide

/-- C1: the claim says decoding a BIND_ACK fails with `MalformedPdu`
whenever `auth_length > frag_length - 24` or `frag_length` exceeds the
buffer length, extracting no auth bytes.  The source performs no such
validation: on a 30-byte buffer with `frag_length = 30` and
`auth_length = 10` (so `auth_length` exceeds `frag_length - 24 = 6`),
`rpc_recv_bind_ack_pdu` succeeds, returns the input length 30 and
extracts the 10 trailing auth bytes. -/
theorem bind_ack_missing_validation :
    10 > 30 - 24 ∧
      rpc_recv_bind_ack_pdu ⟨0, 0⟩
          [5, 0, 12, 3, 16, 0, 0, 0, 30, 0, 10, 0, 2, 0, 0, 0,
            248, 15, 248, 15, 1, 2, 3, 4, 5, 6, 7, 8, 9, 10] 30 true
        = ⟨30, ⟨4088, 4088⟩, some [1, 2, 3, 4, 5, 6, 7, 8, 9, 10]⟩ := by
  decide

/-- C2: the claim says `rpc_send_bind_pdu` continues toward building the
BIND exactly when all three credential duplications succeed and fails
when any yields null.  The source's check (line 154) reads
`settings->Password` instead of `!settings->Password`: with prompted
credentials "u"/"p"/"d" and all three duplications succeeding the
function returns -1 before ever reaching the oracle, while with the
password duplication yielding null it proceeds and completes the
handshake send. -/
theorem bind_credential_check_inverted :
    (rpc_send_bind_pdu ⟨4088, 4088⟩ c2SettingsBlank c2EnvDupsSucceed).ret = -1 ∧
      (rpc_send_bind_pdu ⟨4088, 4088⟩ c2SettingsBlank
          c2EnvDupsSucceed).settings.Username = some "u" ∧
      (rpc_send_bind_pdu ⟨4088, 4088⟩ c2SettingsBlank
          c2EnvDupsSucceed).settings.Domain = some "d" ∧
      (rpc_send_bind_pdu ⟨4088, 4088⟩ c2SettingsBlank
          c2EnvDupsSucceed).settings.Password = some "p" ∧
      (rpc_send_bind_pdu ⟨4088, 4088⟩ c2SettingsBlank c2EnvDupsSucceed).trace = [] ∧
      (rpc_send_bind_pdu ⟨4088, 4088⟩ c2SettingsBlank c2EnvPassDupFails).ret = 1 ∧
      (rpc_send_bind_pdu ⟨4088, 4088⟩ c2SettingsBlank
          c2EnvPassDupFails).settings.Password = none :=
  ⟨rfl, rfl, rfl, rfl, rfl, rfl, rfl⟩

/-- C8: when the gateway username or password is blank (triggering the
credential prompt) and the prompt is declined, `rpc_send_bind_pdu`
returns 0 — distinct from the -1 failure return — with the last error
set to `FREERDP_ERROR_CONNECT_CANCELLED`, before any channel send and
before the NTLM oracle is initialized with credentials. -/
theorem bind_prompt_cancel (st : RpcState) (s : RdpSettings) (env : BindEnv)
    (hBlank : isBlank s.GatewayUsername = true ∨ isBlank s.GatewayPassword = true)
    (hPrompt : env.hasGatewayAuthenticate = true)
    (hCancel : env.promptProceed = false)
    (hNtlm : env.ntlmNewOk = true) :
    (rpc_send_bind_pdu st s env).ret = 0 ∧
      (rpc_send_bind_pdu st s env).ret ≠ -1 ∧
      (rpc_send_bind_pdu st s env).lastError =
        some FREERDP_ERROR_CONNECT_CANCELLED ∧
      noSend (rpc_send_bind_pdu st s env).trace = true ∧
      (∀ ok : Bool, RpcEvent.oracleInit ok ∉ (rpc_send_bind_pdu st s env).trace) := by
  have hpp : (isBlank s.GatewayPassword || isBlank s.GatewayUsername) = true := by
    rcases hBlank with h | h <;> simp [h]
  simp [rpc_send_bind_pdu, hNtlm, hPrompt, hCancel, hpp, noSend]

/-- C8 witness: blank gateway password, prompt present and declined. -/
theorem bind_prompt_cancel_witness :
    isBlank c8Settings.GatewayPassword = true ∧
      (rpc_send_bind_pdu ⟨4088, 4088⟩ c8Settings c8Env).ret = 0 ∧
      (rpc_send_bind_pdu ⟨4088, 4088⟩ c8Settings c8Env).lastError =
        some FREERDP_ERROR_CONNECT_CANCELLED ∧
      noSend (rpc_send_bind_pdu ⟨4088, 4088⟩ c8Settings c8Env).trace = true :=
  ⟨rfl,
    (bind_prompt_cancel ⟨4088, 4088⟩ c8Settings c8Env (Or.inr rfl) rfl rfl rfl).1,
    (bind_prompt_cancel ⟨4088, 4088⟩ c8Settings c8Env (Or.inr rfl) rfl rfl rfl).2.2.1,
    (bind_prompt_cancel ⟨4088, 4088⟩ c8Settings c8Env (Or.inr rfl) rfl rfl rfl).2.2.2.1⟩

/-- C7 counterexample: in `rpc_send_rpc_auth_3_pdu`, when
`rpc_client_call_new` fails (allocation) but `ArrayList_Add` succeeds in
appending the null result, the PDU is still sent although no call object
with the PDU's `call_id` was created or inserted — refuting "a call
object with the PDU's call_id is created and added ... before any bytes
are handed to the in channel; the send never happens when registration
fails" as a statement about both PDUs. -/
theorem auth3_send_without_call_object :
    (rpc_send_rpc_auth_3_pdu ⟨4088, 4088⟩ c7Auth3EnvNewFails).ret = 1 ∧
      (rpc_send_rpc_auth_3_pdu ⟨4088, 4088⟩ c7Auth3EnvNewFails).trace =
        [.callNew 2 false, .listAdd none true,
          .sendPdu (rpc_auth3_wire 4088 4088 [])] ∧
      noSend (rpc_send_rpc_auth_3_pdu ⟨4088, 4088⟩ c7Auth3EnvNewFails).trace = false ∧
      RpcEvent.callNew 2 true ∉
        (rpc_send_rpc_auth_3_pdu ⟨4088, 4088⟩ c7Auth3EnvNewFails).trace ∧
      RpcEvent.listAdd (some 2) true ∉
        (rpc_send_rpc_auth_3_pdu ⟨4088, 4088⟩ c7Auth3EnvNewFails).trace := by
  refine ⟨rfl, rfl, rfl, by decide, by decide⟩

/-- Helper: every send in the BIND tail is preceded by a successful
insertion of the call with id 2, and no send happens when creation or
insertion fails. -/
theorem guarded_bind_tail (st : RpcState) (s : RdpSettings) (env : BindEnv) :
    guardedSends isAddOfCall2 false (rpc_send_bind_tail st s env).trace = true ∧
      ((env.callNewOk = false ∨ env.addOk = false) →
        noSend (rpc_send_bind_tail st s env).trace = true) := by
  obtain ⟨nn, hga, pp, pu, ppw, pd, du, dd, dp, ci, ms, au, bp, ce, t0, t1, bu, cn, ad,
    ss, tok⟩ := env
  cases ci <;> cases ms <;> cases au <;> cases bp <;> cases ce <;> cases t0 <;>
    cases t1 <;> cases bu <;> cases cn <;> cases ad <;>
    first
      | exact ⟨rfl, fun hc => rfl⟩
      | exact ⟨rfl, fun hc => hc.elim (fun h => Bool.noConfusion h)
          (fun h => Bool.noConfusion h)⟩

/-- Helper: every send in the AUTH_3 path is preceded by a successful
insertion, and no send happens when the insertion fails. -/
theorem guarded_auth3 (st : RpcState) (env : Auth3Env) :
    guardedSends isAddSuccess false (rpc_send_rpc_auth_3_pdu st env).trace = true ∧
      (env.addOk = false → noSend (rpc_send_rpc_auth_3_pdu st env).trace = true) := by
  obtain ⟨pa, ba, cn, ad, ss, tok⟩ := env
  cases pa <;> cases ba <;> cases ad <;>
    first
      | exact ⟨rfl, fun hc => rfl⟩
      | exact ⟨rfl, fun hc => Bool.noConfusion hc⟩

/-- Helper: a BIND run either produces no events or the events of the
tail (for some intermediate settings). -/
theorem bind_run_trace_cases (st : RpcState) (s : RdpSettings) (env : BindEnv) :
    (rpc_send_bind_pdu st s env).trace = [] ∨
      ∃ s2, (rpc_send_bind_pdu st s env).trace =
        (rpc_send_bind_tail st s2 env).trace := by
  unfold rpc_send_bind_pdu
  by_cases h0 : env.ntlmNewOk = true
  case neg => rw [if_neg h0]; exact Or.inl rfl
  rw [if_pos h0]
  by_cases h1 : ((isBlank s.GatewayPassword || isBlank s.GatewayUsername)
      && env.hasGatewayAuthenticate) = true
  case neg => rw [if_neg h1]; exact Or.inr ⟨_, rfl⟩
  rw [if_pos h1]
  by_cases h2 : env.promptProceed = true
  case neg => rw [if_neg h2]; exact Or.inl rfl
  rw [if_pos h2]
  by_cases h3 : (promptedSettings s env).GatewayUseSameCredentials = true
  case neg => rw [if_neg h3]; exact Or.inr ⟨_, rfl⟩
  rw [if_pos h3]
  by_cases h4 : (dupSettings (promptedSettings s env) env).Username = none
      ∨ (dupSettings (promptedSettings s env) env).Domain = none
      ∨ ¬ (dupSettings (promptedSettings s env) env).Password = none
  · rw [if_pos h4]; exact Or.inl rfl
  · rw [if_neg h4]; exact Or.inr ⟨_, rfl⟩

/-- C7 (amended): in `rpc_send_bind_pdu` every send is preceded by the
successful insertion of the call object with `call_id = 2`, and no send
happens when either the creation or the insertion fails; in
`rpc_send_rpc_auth_3_pdu` every send is preceded by a successful
insertion and no send happens when the insertion fails, but a failed
creation does not prevent the send (the inserted entry is then null,
see the counterexample). -/
theorem registration_precedes_send :
    ∀ st : RpcState, ∀ s : RdpSettings, ∀ env : BindEnv, ∀ env3 : Auth3Env,
      guardedSends isAddOfCall2 false (rpc_send_bind_pdu st s env).trace = true ∧
        ((env.callNewOk = false ∨ env.addOk = false) →
          noSend (rpc_send_bind_pdu st s env).trace = true) ∧
        guardedSends isAddSuccess false
          (rpc_send_rpc_auth_3_pdu st env3).trace = true ∧
        (env3.addOk = false →
          noSend (rpc_send_rpc_auth_3_pdu st env3).trace = true) := by
  intro st s env env3
  refine ⟨?_, ?_, (guarded_auth3 st env3).1, (guarded_auth3 st env3).2⟩
  · rcases bind_run_trace_cases st s env with h | ⟨s2, h⟩
    · rw [h]; rfl
    · rw [h]; exact (guarded_bind_tail st s2 env).1
  · intro hfail
    rcases bind_run_trace_cases st s env with h | ⟨s2, h⟩
    · rw [h]; rfl
    · rw [h]; exact (guarded_bind_tail st s2 env).2 hfail

/-- C7 (amended) witness: with the AUTH_3 insertion failing no bytes are
sent, and a fully successful BIND run keeps every send behind the
registration of call 2. -/
theorem registration_precedes_send_witness :
    noSend (rpc_send_rpc_auth_3_pdu ⟨4088, 4088⟩ c7Auth3EnvAddFails).trace = true ∧
      guardedSends isAddOfCall2 false
        (rpc_send_bind_pdu ⟨4088, 4088⟩ c7Settings c7BindEnvAllOk).trace = true :=
  ⟨(registration_precedes_send ⟨4088, 4088⟩ c7Settings c7BindEnvAllOk
      c7Auth3EnvAddFails).2.2.2 rfl,
    (registration_precedes_send ⟨4088, 4088⟩ c7Settings c7BindEnvAllOk
      c7Auth3EnvAddFails).1⟩

end RpcBind
